import Mathlib

set_option maxRecDepth 100000

/-!
Shallow embedding of the TTD-with-Python to-do-list application.

The repository provides `src/accounts/views.py` (embedded directly below)
and the unit tests `src/lists/tests/test_views.py`.  The lists application
itself (`lists/views.py`, `lists/models.py` and the two templates) is not
under `src/`; those definitions are modelled from the specification, guided
by the tests, and are marked `Modelled from the spec:` in their doc comments.
-/

/-- An HTTP-level response as observed by the tests: either a redirect to a
URL, or a page rendered from a named template with a status code and a body. -/
inductive Response where
  | redirect (location : String)
  | render (template : String) (status : Nat) (body : String)
deriving DecidableEq

/-- The body of a rendered response; redirects carry no body in the model. -/
def Response.bodyOf : Response → String
  | Response.redirect _ => ("")
  | Response.render _ _ b => b

/-- Modelled from the spec: the Item row of `lists/models.py` (not under
src/): a text string and a mandatory owning list reference (the foreign key),
together with the numeric primary key. -/
structure Item where
  id : Nat
  text : String
  list : Nat
deriving DecidableEq

/-- Modelled from the spec: the persisted relational state: the ids of all
List rows (List is an identity-only entity), all Item rows, and the
auto-increment counters for the two primary keys. -/
structure DB where
  lists : List Nat
  items : List Item
  nextListId : Nat
  nextItemId : Nat
deriving DecidableEq

/-- The empty database a test case starts from; primary keys start at 1. -/
def emptyDB : DB := { lists := [], items := [], nextListId := 1, nextItemId := 1 }

/-- HTML-escaping of one character, as performed by the template engine when
it interpolates a value (django.utils.html.escape): the five special
characters amp, lt, gt, double quote and apostrophe (written via their code
points) become entities; every other character is kept. -/
def escapeChar (c : Char) : String :=
  if c = Char.ofNat 38 then ("&amp;")
  else if c = Char.ofNat 60 then ("&lt;")
  else if c = Char.ofNat 62 then ("&gt;")
  else if c = Char.ofNat 34 then ("&quot;")
  else if c = Char.ofNat 39 then ("&#39;")
  else String.mk [c]

/-- HTML-escaping of a string, character by character. -/
def escape (s : String) : String := String.join (s.data.map escapeChar)

/-- The apostrophe character as a one-character string, via its code point. -/
def apos : String := String.mk [Char.ofNat 39]

/-- The validation message for an empty item, as passed (unescaped) to the
template: You can't have an empty list item. -/
def emptyItemError : String := ("You can") ++ apos ++ ("t have an empty list item")

/-- Modelled from the spec: rendering the home template `home.html` (not
under src/) with an optional error message; interpolated values are
HTML-escaped.  The document opens with the doctype declaration, carries the
fixed title To-Do lists, and ends with the closing document tag. -/
def renderHome (error : String) : String :=
  ("<!DOCTYPE html><html><head><title>To-Do lists</title></head><body><h1>Start a new To-Do list</h1>")
    ++ escape error ++ ("</body></html>")

/-- Modelled from the spec: the `home_page` view of `lists/views.py` (not
under src/): a plain GET of the root renders the home template with no
dynamic data at status 200. -/
def home_page : Response := Response.render ("home.html") 200 (renderHome (""))

/-- Modelled from the spec: the `new_list` view of `lists/views.py` (not
under src/).  Empty submitted text: persist nothing and re-render the home
template with the validation message at status 200.  Non-empty text: create
one List row and one Item row owned by it, then redirect to the new list's
detail URL. -/
def new_list (db : DB) (item_text : String) : DB × Response :=
  if item_text = ("") then
    (db, Response.render ("home.html") 200 (renderHome emptyItemError))
  else
    ({ lists := db.lists ++ [db.nextListId],
       items := db.items ++ [{ id := db.nextItemId, text := item_text, list := db.nextListId }],
       nextListId := db.nextListId + 1,
       nextItemId := db.nextItemId + 1 },
     Response.redirect (("/lists/") ++ toString db.nextListId ++ ("/")))

/-- Modelled from the spec: the Item rows owned by the List with the given
id — the reverse foreign-key set the detail template enumerates. -/
def itemsOf (db : DB) (listId : Nat) : List Item :=
  db.items.filter (fun i => i.list == listId)

/-- One table row of the list template, wrapping one item's text. -/
def renderRow (i : Item) : String := ("<tr><td>") ++ i.text ++ ("</td></tr>")

/-- The concatenated table rows of the list template. -/
def renderRows : List Item → String
  | [] => ("")
  | i :: rest => renderRow i ++ renderRows rest

/-- Modelled from the spec: rendering the list detail template `list.html`
(not under src/) over the given items. -/
def renderListPage (items : List Item) : String :=
  ("<!DOCTYPE html><html><head><title>To-Do lists</title></head><body><table id=id_list_table>")
    ++ renderRows items ++ ("</table></body></html>")

/-- Modelled from the spec: the `view_list` view of `lists/views.py` (not
under src/): fetch the List named by the URL and render the detail template
over that list's items only (the template context carries that List under
the `list` key). -/
def view_list (db : DB) (listId : Nat) : Response :=
  Response.render ("list.html") 200 (renderListPage (itemsOf db listId))

/-- Modelled from the spec: the `add_item` view of `lists/views.py` (not
under src/): create one Item with the submitted text owned by the List named
in the URL, then redirect to that list's detail view.  The spec leaves
empty-text handling on this path unspecified and warns against assuming the
new-list validation is mirrored, so no validation is modelled here. -/
def add_item (db : DB) (listId : Nat) (item_text : String) : DB × Response :=
  ({ db with
     items := db.items ++ [{ id := db.nextItemId, text := item_text, list := listId }],
     nextItemId := db.nextItemId + 1 },
   Response.redirect (("/lists/") ++ toString listId ++ ("/")))

/-- The string s contains t as a contiguous substring (character-list infix). -/
def strContains (s t : String) : Prop := t.data <:+: s.data

instance (s t : String) : Decidable (strContains s t) :=
  inferInstanceAs (Decidable (t.data <:+: s.data))

/-- A login/logout request: the POST form data and the session's
authenticated user id (none when unauthenticated), standing for
request.session. -/
structure AuthRequest where
  post : List (String × String)
  session : Option Nat
deriving DecidableEq

/-- request.POST lookup: the first value stored under the key, if any; a
subscript on a missing key raises MultiValueDictKeyError, which callers
model on the none branch. -/
def lookupPost (post : List (String × String)) (key : String) : Option String :=
  (post.find? (fun p => p.1 == key)).map (fun p => p.2)

/-- Embedding of `login` from src/accounts/views.py: the view reads
request.POST[assertion] unconditionally (raising if the field is absent,
modelled as Except.error), passes it to the pluggable authentication
backend (a parameter standing for django.contrib.auth.authenticate), binds
the session to the resolved user via auth_login when one is returned, and
returns a redirect to the site root either way.  The stderr print is a pure
side effect and is not modelled. -/
def login (backend : String → Option Nat) (req : AuthRequest) :
    Except String (Option Nat × Response) :=
  match lookupPost req.post ("assertion") with
  | none => Except.error ("MultiValueDictKeyError: assertion")
  | some a =>
    match backend a with
    | some u => Except.ok (some u, Response.redirect ("/"))
    | none => Except.ok (req.session, Response.redirect ("/"))

/-- The module-level names in scope in src/accounts/views.py: its imports
(sys, authenticate, auth_login, redirect) and its two function defs.  The
name auth_logout is not among them: it is never imported or defined. -/
def accountsViewsNames : List String :=
  [("sys"), ("authenticate"), ("auth_login"), ("redirect"), ("login"), ("logout")]

/-- Embedding of `logout` from src/accounts/views.py: the body calls
auth_logout(request) and then returns a redirect to the site root.  The
call resolves the name auth_logout against the module's names; since it is
absent, the call raises NameError before any session teardown or redirect
happens. -/
def logout (req : AuthRequest) : Except String (Option Nat × Response) :=
  if ("auth_logout") ∈ accountsViewsNames then
    Except.ok (none, Response.redirect ("/"))
  else
    Except.error ("NameError: name auth_logout is not defined")

/-! Helper lemmas about substring containment in the rendered pages. -/

theorem infix_append_left {α : Type} {t r : List α} (a : List α) (h : t <:+: r) :
    t <:+: a ++ r := by
  obtain ⟨s, u, hsu⟩ := h
  refine ⟨a ++ s, u, ?_⟩
  rw [← hsu]
  simp [List.append_assoc]

theorem renderRows_contains_mem {l : List Item} {i : Item} (h : i ∈ l) :
    i.text.data <:+: (renderRows l).data := by
  induction l with
  | nil => cases h
  | cons j rest ih =>
    rcases List.mem_cons.mp h with h | h
    · subst h
      show i.text.data <:+: (renderRow i ++ renderRows rest).data
      simp only [renderRow, String.data_append, List.append_assoc]
      exact List.infix_append' _ _ _
    · have hs : (renderRows (j :: rest)).data
          = (renderRow j).data ++ (renderRows rest).data := by
        simp [renderRows]
      rw [hs]
      exact infix_append_left _ (ih h)

theorem mem_itemsOf_infix_page (db : DB) (A : Nat) {i : Item} (hi : i ∈ db.items)
    (hA : i.list = A) :
    strContains (Response.bodyOf (view_list db A)) i.text := by
  have hmem : i ∈ itemsOf db A := by
    simp [itemsOf, List.mem_filter, hi, hA]
  show i.text.data <:+: (renderListPage (itemsOf db A)).data
  simp only [renderListPage, String.data_append, List.append_assoc]
  exact (renderRows_contains_mem hmem).trans (List.infix_append' _ _ _)

/-! The claim theorems. -/

/-- Claim C1: for every non-empty submitted item text, a POST to the
new-list endpoint appends exactly one new List row and exactly one new Item
row whose text is the submitted text and whose list reference is the new
List, and the response is a redirect to the new list's detail URL. -/
theorem new_list_creates_list_and_item (db : DB) (t : String) (h : t ≠ ("")) :
    (new_list db t).1.lists = db.lists ++ [db.nextListId] ∧
    (new_list db t).1.items
      = db.items ++ [{ id := db.nextItemId, text := t, list := db.nextListId }] ∧
    (new_list db t).2
      = Response.redirect (("/lists/") ++ toString db.nextListId ++ ("/")) := by
  simp [new_list, h]

/-- Witness for C1 at the test's input on the empty database. -/
theorem new_list_creates_list_and_item_witness :
    (new_list emptyDB ("A new list item")).1.lists = [1] ∧
    (new_list emptyDB ("A new list item")).1.items
      = [{ id := 1, text := ("A new list item"), list := 1 }] ∧
    (new_list emptyDB ("A new list item")).2 = Response.redirect ("/lists/1/") := by
  have h := new_list_creates_list_and_item emptyDB ("A new list item") (by decide)
  refine ⟨h.1.trans (by decide), h.2.1.trans (by decide), h.2.2.trans (by decide)⟩

/-- Claim C2: posting empty text to the new-list endpoint persists nothing
(the stored state is unchanged), the response is rendered from the home
template at status 200 rather than being a redirect, and its body contains
the HTML-escaped validation message. -/
theorem new_list_empty_text_rejected (db : DB) :
    (new_list db ("")).1 = db ∧
    (new_list db ("")).2
      = Response.render ("home.html") 200 (renderHome emptyItemError) ∧
    escape emptyItemError = ("You can&#39;t have an empty list item") ∧
    strContains (Response.bodyOf (new_list db ("")).2) (escape emptyItemError) := by
  refine ⟨by simp [new_list], by simp [new_list], by decide, ?_⟩
  have hb : Response.bodyOf (new_list db ("")).2 = renderHome emptyItemError := by
    simp [new_list, Response.bodyOf]
  rw [show strContains (Response.bodyOf (new_list db ("")).2) (escape emptyItemError)
        = strContains (renderHome emptyItemError) (escape emptyItemError) from by rw [hb]]
  decide

/-- A database with two distinct lists whose single items share their text. -/
def dbShared : DB :=
  { lists := [1, 2],
    items := [{ id := 1, text := ("itemey"), list := 1 },
              { id := 2, text := ("itemey"), list := 2 }],
    nextListId := 3, nextItemId := 3 }

/-- Claim C3 counterexample: the claim quantifies over all pairs of distinct
lists with their own items, but when an item of list 2 shares its text with
an item of list 1, the detail page of list 1 does contain that text, so the
no-other-list-text part fails as stated. -/
theorem view_list_counterexample :
    ¬ (∀ (db : DB) (A B : Nat), A ∈ db.lists → B ∈ db.lists → A ≠ B →
        (∀ i ∈ db.items, i.list = A →
            strContains (Response.bodyOf (view_list db A)) i.text) ∧
        (∀ i ∈ db.items, i.list = B →
            ¬ strContains (Response.bodyOf (view_list db A)) i.text)) := by
  intro hclaim
  have h := hclaim dbShared 1 2 (by decide) (by decide) (by decide)
  exact h.2 { id := 2, text := ("itemey"), list := 2 } (by decide) rfl (by decide)

/-- Claim C3 amended: the detail page for list A contains the text of every
item of A; no item of another list B is among the items the template is
rendered over; and the page is rendered from A's items alone, so any text
not occurring in that rendering — in particular a B item's text that does
not already occur there — does not occur in the response. -/
theorem view_list_isolates_lists (db : DB) (A B : Nat) (hAB : A ≠ B) :
    (∀ i ∈ db.items, i.list = A →
        strContains (Response.bodyOf (view_list db A)) i.text) ∧
    (∀ i ∈ db.items, i.list = B → i ∉ itemsOf db A) ∧
    (∀ t : String, ¬ strContains (renderListPage (itemsOf db A)) t →
        ¬ strContains (Response.bodyOf (view_list db A)) t) := by
  refine ⟨fun i hi hA => mem_itemsOf_infix_page db A hi hA, ?_, ?_⟩
  · intro i _ hB hmem
    have hA : i.list = A := by
      simpa using (List.mem_filter.mp hmem).2
    exact hAB (hA ▸ hB)
  · intro t hnot hcon
    exact hnot hcon

/-- Witness for the amended C3 at the concrete two-list database. -/
theorem view_list_isolates_lists_witness :
    strContains (Response.bodyOf (view_list dbShared 1)) ("itemey") ∧
    ({ id := 2, text := ("itemey"), list := 2 } : Item) ∉ itemsOf dbShared 1 :=
  ⟨(view_list_isolates_lists dbShared 1 2 (by decide)).1
      { id := 1, text := ("itemey"), list := 1 } (by decide) rfl,
   (view_list_isolates_lists dbShared 1 2 (by decide)).2.1
      { id := 2, text := ("itemey"), list := 2 } (by decide) rfl⟩

/-- Claim C4: posting a non-empty text to add_item for an existing list
grows that list's item count by exactly one, the new item carries the
submitted text and references that list, and the response redirects to that
list's detail URL. -/
theorem add_item_appends_to_list (db : DB) (lid : Nat) (t : String)
    (hmem : lid ∈ db.lists) (ht : t ≠ ("")) :
    (itemsOf (add_item db lid t).1 lid).length = (itemsOf db lid).length + 1 ∧
    (add_item db lid t).1.items
      = db.items ++ [{ id := db.nextItemId, text := t, list := lid }] ∧
    (add_item db lid t).2
      = Response.redirect (("/lists/") ++ toString lid ++ ("/")) := by
  refine ⟨?_, rfl, rfl⟩
  simp [add_item, itemsOf, List.filter_append]

/-- A database holding one existing empty list with id 1. -/
def dbOneList : DB := { lists := [1], items := [], nextListId := 2, nextItemId := 1 }

/-- Witness for C4 at the test's input on a database with one existing list. -/
theorem add_item_appends_to_list_witness :
    (itemsOf (add_item dbOneList 1 ("A new item for an existing list")).1 1).length
        = (itemsOf dbOneList 1).length + 1 ∧
    (add_item dbOneList 1 ("A new item for an existing list")).2
        = Response.redirect ("/lists/1/") := by
  have h := add_item_appends_to_list dbOneList 1 ("A new item for an existing list")
    (by decide) (by decide)
  exact ⟨h.1, h.2.2.trans (by decide)⟩

/-- Claim C5: for a login request carrying an assertion field, if the
backend resolves the assertion to a user the view binds the session to that
user and redirects to the site root; if the backend returns no user the
view leaves the session as it was and still redirects to the site root. -/
theorem login_auth_outcomes (backend : String → Option Nat) (req : AuthRequest)
    (a : String) (ha : lookupPost req.post ("assertion") = some a) :
    (∀ u : Nat, backend a = some u →
        login backend req = Except.ok (some u, Response.redirect ("/"))) ∧
    (backend a = none →
        login backend req = Except.ok (req.session, Response.redirect ("/"))) := by
  constructor
  · intro u hu
    simp [login, ha, hu]
  · intro hn
    simp [login, ha, hn]

/-- Witness for C5 with a concrete backend resolving exactly one assertion. -/
theorem login_auth_outcomes_witness :
    login (fun s => if s = ("good") then some 7 else none)
        { post := [(("assertion"), ("good"))], session := none }
      = Except.ok (some 7, Response.redirect ("/")) ∧
    login (fun s => if s = ("good") then some 7 else none)
        { post := [(("assertion"), ("bad"))], session := none }
      = Except.ok (none, Response.redirect ("/")) :=
  ⟨(login_auth_outcomes (fun s => if s = ("good") then some 7 else none)
      { post := [(("assertion"), ("good"))], session := none } ("good") rfl).1 7 (by decide),
   (login_auth_outcomes (fun s => if s = ("good") then some 7 else none)
      { post := [(("assertion"), ("bad"))], session := none } ("bad") rfl).2 (by decide)⟩

/-- Claim C6 (code bug): the logout view is claimed to end the session and
redirect to the site root, but src/accounts/views.py never imports or
defines auth_logout, so every logout request raises NameError instead of
returning any response. -/
theorem logout_raises_nameerror (req : AuthRequest) :
    logout req = Except.error ("NameError: name auth_logout is not defined") ∧
    ∀ (s : Option Nat) (r : Response), logout req ≠ Except.ok (s, r) := by
  have h : logout req
      = Except.error ("NameError: name auth_logout is not defined") := by
    unfold logout
    rw [if_neg (by decide)]
  refine ⟨h, fun s r hok => ?_⟩
  rw [h] at hok
  cases hok

/-- Witness for C6 at a concrete logout request with a live session. -/
theorem logout_raises_nameerror_witness :
    logout { post := [], session := some 7 }
      = Except.error ("NameError: name auth_logout is not defined") :=
  (logout_raises_nameerror { post := [], session := some 7 }).1

/-- Claim C7 counterexample: the add-item path performs no validation, so
posting empty text for an existing list persists an Item with empty text,
against the claimed every-path validation invariant. -/
theorem add_item_empty_text_persisted :
    ¬ (∀ i ∈ (add_item dbOneList 1 ("")).1.items, i.text ≠ ("")) := by decide

/-- Claim C7 amended: every Item carries exactly one owning list reference;
the new-list path preserves the no-empty-text invariant unconditionally
(its validation rejects empty text before anything persists), while the
add-item path performs no validation and preserves the invariant only when
the submitted text is non-empty. -/
theorem item_invariants (db : DB) (hinv : ∀ i ∈ db.items, i.text ≠ ("")) :
    (∀ t, ∀ i ∈ (new_list db t).1.items, i.text ≠ ("")) ∧
    (∀ lid t, t ≠ ("") → ∀ i ∈ (add_item db lid t).1.items, i.text ≠ ("")) ∧
    (∀ i ∈ db.items, ∃ l, i.list = l ∧ ∀ m, i.list = m → m = l) := by
  refine ⟨?_, ?_, fun i _ => ⟨i.list, rfl, fun m hm => hm.symm⟩⟩
  · intro t i hi
    by_cases ht : t = ("")
    · subst ht
      simp only [new_list, if_pos rfl] at hi
      exact hinv i hi
    · simp only [new_list, if_neg ht, List.mem_append, List.mem_singleton] at hi
      rcases hi with hi | hi
      · exact hinv i hi
      · subst hi
        exact ht
  · intro lid t ht i hi
    simp only [add_item, List.mem_append, List.mem_singleton] at hi
    rcases hi with hi | hi
    · exact hinv i hi
    · subst hi
      exact ht

/-- Witness for the amended C7: on the empty database the new-list path
yields only non-empty item texts at the test's input. -/
theorem item_invariants_witness :
    ({ id := 1, text := ("A new list item"), list := 1 } : Item).text ≠ ("") :=
  (item_invariants emptyDB (by decide)).1 ("A new list item")
    { id := 1, text := ("A new list item"), list := 1 } (by decide)

/-- Claim C8: a plain GET of the root yields a body byte-identical to the
home template rendered with no data, starting with the doctype declaration,
containing the title To-Do lists, and ending with the closing document tag. -/
theorem home_page_html :
    Response.bodyOf home_page = renderHome ("") ∧
    home_page = Response.render ("home.html") 200 (renderHome ("")) ∧
    (("<!DOCTYPE html>").data <+: (Response.bodyOf home_page).data) ∧
    strContains (Response.bodyOf home_page) ("<title>To-Do lists</title>") ∧
    (("</html>").data <:+ (Response.bodyOf home_page).data) :=
  ⟨rfl, rfl, by decide, by decide, by decide⟩

/-- Claim C9: the login view raises from the unconditional POST subscript
exactly when the assertion field is absent: with the field absent it errors
identically for every backend (never reaching it and never returning the
redirect), and an error occurs only in that case. -/
theorem login_missing_assertion (backend : String → Option Nat) (req : AuthRequest) :
    (lookupPost req.post ("assertion") = none →
        login backend req = Except.error ("MultiValueDictKeyError: assertion")) ∧
    ((∃ e, login backend req = Except.error e) ↔
        lookupPost req.post ("assertion") = none) := by
  cases hl : lookupPost req.post ("assertion") with
  | none =>
    refine ⟨fun _ => by simp [login, hl], ?_⟩
    simp [login, hl]
  | some a =>
    refine ⟨fun hc => by simp [hl] at hc, ?_⟩
    cases hb : backend a with
    | none => simp [login, hl, hb]
    | some u => simp [login, hl, hb]

/-- Witness for C9 at a request with no form data. -/
theorem login_missing_assertion_witness :
    login (fun _ => some 7) { post := [], session := none }
      = Except.error ("MultiValueDictKeyError: assertion") :=
  (login_missing_assertion (fun _ => some 7) { post := [], session := none }).1 rfl

/-- Claim C10: two-run noninterference of the login view's HTTP response:
for any two requests carrying assertion fields, one resolved by its backend
and one rejected by its backend, the responses are the same redirect to the
site root; the authentication outcome shows up only in the session. -/
theorem login_response_noninterference
    (b1 b2 : String → Option Nat) (r1 r2 : AuthRequest) (a1 a2 : String) (u : Nat)
    (h1 : lookupPost r1.post ("assertion") = some a1)
    (h2 : lookupPost r2.post ("assertion") = some a2)
    (hb1 : b1 a1 = some u) (hb2 : b2 a2 = none) :
    (login b1 r1).map (fun p => p.2) = (login b2 r2).map (fun p => p.2) ∧
    (login b1 r1).map (fun p => p.2) = Except.ok (Response.redirect ("/")) ∧
    login b1 r1 = Except.ok (some u, Response.redirect ("/")) ∧
    login b2 r2 = Except.ok (r2.session, Response.redirect ("/")) := by
  refine ⟨?_, ?_, ?_, ?_⟩ <;> simp [login, h1, h2, hb1, hb2, Except.map]

/-- Witness for C10 with two concrete backends and requests. -/
theorem login_response_noninterference_witness :
    (login (fun _ => some 7) { post := [(("assertion"), ("x"))], session := none }).map
        (fun p => p.2)
      = (login (fun _ => none) { post := [(("assertion"), ("y"))], session := some 3 }).map
        (fun p => p.2) :=
  (login_response_noninterference (fun _ => some 7) (fun _ => none)
    { post := [(("assertion"), ("x"))], session := none }
    { post := [(("assertion"), ("y"))], session := some 3 }
    ("x") ("y") 7 rfl rfl rfl rfl).1
